import Mathlib

/-!
Verification of the redis-operator reconciliation state machine.

The repository contains two variants of the controller file:
the current `controllers/rediscluster_controller.go` (embedded in
namespace `Ctrl`) and an older variant of the same file (embedded in
namespace `Legacy`).  Both define the six lifecycle states
`NotExists, Reset, Ready, Recovering, Updating, Scale` as strings, a
`Reconcile` entry point that fetches the cluster resource, reads the
persisted state view, and dispatches on the lifecycle-state string to
one of five handlers.

The embedding models every external call (pod deletion, cluster
creation, health checks, the state-view store, ...) by its result,
passed in through an `Env` record: `Option OpError` for calls that
only succeed or fail, `Except OpError Bool` for the boolean probes of
the ready-state handler, and `Except FetchError String` for the fetch
of the cluster resource (carrying the persisted
`Status.ClusterState` string on success).  The handlers and the
reconcile loop are then direct translations of the Go control flow:
each returns the new `Status.ClusterState` string together with the
error it propagates, and `Reconcile` additionally reports which
handler was dispatched, whether the state view was regenerated
(`CreateStateView`), and whether the tick reached its deferred
persistence calls.
-/

/-- Error value returned by an engine or sub-operation; the `code`
tag keeps distinct errors distinguishable. -/
structure OpError where
  code : Nat
deriving DecidableEq, Repr

/-- Error returned by the fetch of the RedisCluster resource;
`isNotFound` models `apierrors.IsNotFound`, which
`client.IgnoreNotFound` inspects. -/
structure FetchError where
  isNotFound : Bool
  code : Nat
deriving DecidableEq, Repr

/-- Model of `client.IgnoreNotFound`: drops the error when it is a
not-found error, keeps it otherwise. -/
def ignoreNotFound (e : FetchError) : Option FetchError :=
  if e.isNotFound then none else some e

/-- Model of `ctrl.Result`: the `Requeue` flag and the
`RequeueAfter` delay in seconds (`ctrl.Result{}` is `⟨false, 0⟩`). -/
structure CtrlResult where
  requeue : Bool
  requeueAfterSec : Nat
deriving DecidableEq, Repr

/-- The five state handlers a tick can dispatch to. -/
inductive Handler where
  | initializing
  | ready
  | recovering
  | updating
  | scale
deriving DecidableEq, Repr

/-- Results of all external calls a tick can make, one field per
call site reached from `Reconcile`. -/
structure Env where
  /-- result of `r.Get` on the RedisCluster resource; `ok` carries
  the persisted `Status.ClusterState` string. -/
  fetch : Except FetchError String
  /-- result of `r.getClusterStateView`. -/
  stateViewErr : Option OpError
  /-- result of `r.deleteAllRedisClusterPods`. -/
  deletePods : Option OpError
  /-- result of `r.createNewRedisCluster`. -/
  createLeaders : Option OpError
  /-- result of `r.initializeFollowers`. -/
  initFollowers : Option OpError
  /-- result of `r.NewRedisClusterView` in the ready handler. -/
  viewErr : Option OpError
  /-- result of `r.isClusterComplete`. -/
  complete : Except OpError Bool
  /-- result of `r.isClusterUpToDate`. -/
  uptodate : Except OpError Bool
  /-- result of `r.isScaleRequired` (first component). -/
  scaleRequired : Bool
  /-- result of `r.scaleCluster`. -/
  scaleOp : Option OpError
  /-- result of `r.recoverCluster`. -/
  recover : Option OpError
  /-- result of `r.updateCluster` (the rolling update). -/
  rollingUpdate : Option OpError
deriving Repr

/-- Outcome of one reconcile tick of the current controller variant:
the returned `ctrl.Result` and error, which handler was dispatched,
the `Status.ClusterState` string after the tick (`none` when the
fetch failed), whether `CreateStateView` regenerated the state view,
and whether the deferred persistence calls at the end of the tick
were reached. -/
structure Outcome where
  result : CtrlResult
  err : Option FetchError
  dispatched : Option Handler
  finalStatus : Option String
  regen : Bool
  persisted : Bool
deriving DecidableEq, Repr

/-- Effects of an HTTP diagnostic endpoint on the state view:
whether it regenerated the view via `CreateStateView` and whether it
wrote the view back to the store. -/
structure EndpointEffect where
  regen : Bool
  persistedView : Bool
deriving DecidableEq, Repr

namespace Ctrl

/-- Model of lines 101–104: the in-memory lifecycle state is the
persisted string, except that an empty string is read as
`NotExists`. -/
def effectiveState (s : String) : String :=
  if s.length = 0 then "NotExists" else s

/-- Model of `handleInitializingCluster` (current variant): delete
all pods (returning the error with the status untouched on failure),
then rebuild the state view and create leaders, then initialize
followers — each of the last two setting the status to `Reset` on
failure — and set the status to `Ready` on success. -/
def handleInitializingCluster (status : String)
    (deletePods createLeaders initFollowers : Option OpError) :
    String × Option OpError :=
  match deletePods with
  | some e => (status, some e)
  | none =>
    match createLeaders with
    | some e => ("Reset", some e)
    | none =>
      match initFollowers with
      | some e => ("Reset", some e)
      | none => ("Ready", none)

/-- Model of `handleReadyState` (current variant): build the view,
then check completeness, then up-to-dateness, then scale need, in
that order, with the next-state writes of lines 201–221. -/
def handleReadyState (status : String) (viewErr : Option OpError)
    (complete uptodate : Except OpError Bool) (scaleRequired : Bool) :
    String × Option OpError :=
  match viewErr with
  | some e => (status, some e)
  | none =>
    match complete with
    | Except.error e => (status, some e)
    | Except.ok false => ("Recovering", none)
    | Except.ok true =>
      match uptodate with
      | Except.error e => ("Recovering", some e)
      | Except.ok false => ("Updating", none)
      | Except.ok true =>
        if scaleRequired then ("Scale", none) else (status, none)

/-- Model of `handleScaleState` (current variant): a scale failure is
only logged; the status is set to `Ready` and no error returned. -/
def handleScaleState (_status : String) (_scaleOp : Option OpError) :
    String × Option OpError :=
  ("Ready", none)

/-- Model of `handleRecoveringState` (current variant): return the
recovery error, leaving the status field untouched in both cases (the
`Ready` transition on success is performed inside `recoverCluster`,
which lives outside this file). -/
def handleRecoveringState (status : String) (recover : Option OpError) :
    String × Option OpError :=
  match recover with
  | some e => (status, some e)
  | none => (status, none)

/-- Model of `handleUpdatingState` (current variant): run the rolling
update, set the status to `Recovering` unconditionally, and return
the update's error. -/
def handleUpdatingState (_status : String) (rollingUpdate : Option OpError) :
    String × Option OpError :=
  ("Recovering", rollingUpdate)

/-- Model of the `switch r.State` dispatch of lines 116–134: which
handler runs for each lifecycle-state string, the status and error it
produces; an unknown state string matches no case. -/
def runSwitch (st status : String) (e : Env) :
    Option Handler × String × Option OpError :=
  if st = "NotExists" then
    (some Handler.initializing,
      handleInitializingCluster status e.deletePods e.createLeaders e.initFollowers)
  else if st = "Reset" then
    (some Handler.initializing,
      handleInitializingCluster status e.deletePods e.createLeaders e.initFollowers)
  else if st = "Ready" then
    (some Handler.ready,
      handleReadyState status e.viewErr e.complete e.uptodate e.scaleRequired)
  else if st = "Recovering" then
    (some Handler.recovering, handleRecoveringState status e.recover)
  else if st = "Updating" then
    (some Handler.updating, handleUpdatingState status e.rollingUpdate)
  else if st = "Scale" then
    (some Handler.scale, handleScaleState status e.scaleOp)
  else (none, status, none)

/-- Model of the body of `Reconcile` after a successful fetch of the
resource whose persisted state string is `status` (lines 101–140):
read the state view, regenerate it when the state is `NotExists` or
`Reset`, otherwise return early on a state-view read error with a
20-second requeue and nil error; then dispatch, log (and swallow) the
handler error, and return a 15-second requeue whose `Requeue` flag is
set when the handler returned no error. -/
def ReconcileOk (status : String) (e : Env) : Outcome :=
  let st := effectiveState status
  if st = "NotExists" ∨ st = "Reset" then
    let d := runSwitch st status e
    { result := { requeue := d.2.2.isNone, requeueAfterSec := 15 }
      err := none
      dispatched := d.1
      finalStatus := some d.2.1
      regen := true
      persisted := true }
  else if e.stateViewErr.isSome then
    { result := { requeue := false, requeueAfterSec := 20 }
      err := none
      dispatched := none
      finalStatus := some status
      regen := false
      persisted := false }
  else
    let d := runSwitch st status e
    { result := { requeue := d.2.2.isNone, requeueAfterSec := 15 }
      err := none
      dispatched := d.1
      finalStatus := some d.2.1
      regen := false
      persisted := true }

/-- Model of `Reconcile` (current variant): a fetch failure returns a
15-second requeue with `client.IgnoreNotFound` of the error and
dispatches nothing; otherwise the tick proceeds on the fetched
status string. -/
def Reconcile (e : Env) : Outcome :=
  match e.fetch with
  | Except.error fe =>
    { result := { requeue := false, requeueAfterSec := 15 }
      err := ignoreNotFound fe
      dispatched := none
      finalStatus := none
      regen := false
      persisted := false }
  | Except.ok status => ReconcileOk status e

end Ctrl

/-- Outcome of one reconcile tick of the older controller variant;
the extra `clusterReset` field is the value of the package-level
`ClusterReset` flag after the tick. -/
structure LOutcome where
  result : CtrlResult
  err : Option FetchError
  dispatched : Option Handler
  finalStatus : Option String
  regen : Bool
  persisted : Bool
  clusterReset : Bool
deriving DecidableEq, Repr

namespace Legacy

/-- Model of `handleInitializingCluster` (older variant): as in the
current variant, but leader-creation or follower-initialization
failure additionally sets the `ClusterReset` flag. -/
def handleInitializingCluster (status : String) (clusterReset : Bool)
    (deletePods createLeaders initFollowers : Option OpError) :
    String × Bool × Option OpError :=
  match deletePods with
  | some e => (status, clusterReset, some e)
  | none =>
    match createLeaders with
    | some e => ("Reset", true, some e)
    | none =>
      match initFollowers with
      | some e => ("Reset", true, some e)
      | none => ("Ready", clusterReset, none)

/-- Model of `handleReadyState` (older variant): completeness, then
up-to-dateness, then scale need, with the same next-state writes as
the current variant; this variant has no separate view-building
step. -/
def handleReadyState (status : String)
    (complete uptodate : Except OpError Bool) (scaleRequired : Bool) :
    String × Option OpError :=
  match complete with
  | Except.error e => (status, some e)
  | Except.ok false => ("Recovering", none)
  | Except.ok true =>
    match uptodate with
    | Except.error e => ("Recovering", some e)
    | Except.ok false => ("Updating", none)
    | Except.ok true =>
      if scaleRequired then ("Scale", none) else (status, none)

/-- Model of `handleScaleState` (older variant): a scale failure is
only logged; the status is set to `Ready` and no error returned. -/
def handleScaleState (_status : String) (_scaleOp : Option OpError) :
    String × Option OpError :=
  ("Ready", none)

/-- Model of `handleRecoveringState` (older variant): on a recovery
failure return the error with the status untouched; on success set
the status to `Ready`. -/
def handleRecoveringState (status : String) (recover : Option OpError) :
    String × Option OpError :=
  match recover with
  | some e => (status, some e)
  | none => ("Ready", none)

/-- Model of `handleUpdatingState` (older variant): run the rolling
update, set the status to `Recovering` unconditionally, and return
the update's error. -/
def handleUpdatingState (_status : String) (rollingUpdate : Option OpError) :
    String × Option OpError :=
  ("Recovering", rollingUpdate)

/-- Model of the `switch r.State` dispatch of the older variant:
the `Reset` case clears the `ClusterReset` flag after the handler,
and the `Ready`/`Recovering`/`Updating`/`Scale` cases run their
handler only while the flag is off.  Returns the dispatched handler,
the new status, the handler error, and the new flag value. -/
def runSwitch (cr : Bool) (st status : String) (e : Env) :
    Option Handler × String × Option OpError × Bool :=
  if st = "NotExists" then
    let r := handleInitializingCluster status cr e.deletePods e.createLeaders e.initFollowers
    (some Handler.initializing, r.1, r.2.2, r.2.1)
  else if st = "Reset" then
    let r := handleInitializingCluster status cr e.deletePods e.createLeaders e.initFollowers
    (some Handler.initializing, r.1, r.2.2, false)
  else if st = "Ready" then
    if cr then (none, status, none, cr)
    else
      let r := handleReadyState status e.complete e.uptodate e.scaleRequired
      (some Handler.ready, r.1, r.2, cr)
  else if st = "Recovering" then
    if cr then (none, status, none, cr)
    else
      let r := handleRecoveringState status e.recover
      (some Handler.recovering, r.1, r.2, cr)
  else if st = "Updating" then
    if cr then (none, status, none, cr)
    else
      let r := handleUpdatingState status e.rollingUpdate
      (some Handler.updating, r.1, r.2, cr)
  else if st = "Scale" then
    if cr then (none, status, none, cr)
    else
      let r := handleScaleState status e.scaleOp
      (some Handler.scale, r.1, r.2, cr)
  else (none, status, none, cr)

/-- Model of the body of the older `Reconcile` after a successful
fetch: the state view is regenerated at top level only for
`NotExists`; any other state returns early on a state-view read
error with a 20-second requeue and nil error; the dispatch path
always returns a plain 15-second requeue with nil error.  Inside the
initialization handler the state view is regenerated again once pod
deletion has succeeded, which is what the `regen` flag of the
dispatch branch for `Reset` records. -/
def ReconcileOk (cr : Bool) (status : String) (e : Env) : LOutcome :=
  let st := Ctrl.effectiveState status
  if st = "NotExists" then
    let d := runSwitch cr st status e
    { result := { requeue := false, requeueAfterSec := 15 }
      err := none
      dispatched := d.1
      finalStatus := some d.2.1
      regen := true
      persisted := true
      clusterReset := d.2.2.2 }
  else if e.stateViewErr.isSome then
    { result := { requeue := false, requeueAfterSec := 20 }
      err := none
      dispatched := none
      finalStatus := some status
      regen := false
      persisted := false
      clusterReset := cr }
  else
    let d := runSwitch cr st status e
    { result := { requeue := false, requeueAfterSec := 15 }
      err := none
      dispatched := d.1
      finalStatus := some d.2.1
      regen := if st = "Reset" then e.deletePods.isNone else false
      persisted := true
      clusterReset := d.2.2.2 }

/-- Model of the older `Reconcile`: a fetch failure returns an empty
`ctrl.Result` with `client.IgnoreNotFound` of the error and
dispatches nothing; otherwise the tick proceeds on the fetched
status string. -/
def Reconcile (cr : Bool) (e : Env) : LOutcome :=
  match e.fetch with
  | Except.error fe =>
    { result := { requeue := false, requeueAfterSec := 0 }
      err := ignoreNotFound fe
      dispatched := none
      finalStatus := none
      regen := false
      persisted := false
      clusterReset := cr }
  | Except.ok status => ReconcileOk cr status e

/-- Model of the `PrintClusterStateView` HTTP endpoint of the older
variant (lines 383–411): it calls `CreateStateView` on its first
line, unconditionally, and then writes the regenerated view back via
`updateClusterStateView`/`createClusterStateView`; none of this
consults the lifecycle-state string, which is why the argument is
unused. -/
def PrintClusterStateView (_status : String) : EndpointEffect :=
  { regen := true, persistedView := true }

end Legacy

/-- Concrete environment in which every external call succeeds and
the cluster is complete, up to date, and needs no scale. -/
def healthyEnv : Env :=
  { fetch := Except.ok "Ready"
    stateViewErr := none
    deletePods := none
    createLeaders := none
    initFollowers := none
    viewErr := none
    complete := Except.ok true
    uptodate := Except.ok true
    scaleRequired := false
    scaleOp := none
    recover := none
    rollingUpdate := none }

/-- Concrete environment whose rolling update fails. -/
def updateFailEnv : Env :=
  { healthyEnv with fetch := Except.ok "Updating", rollingUpdate := some ⟨2⟩ }

/-- Concrete environment whose state-view read fails. -/
def viewReadFailEnv : Env :=
  { healthyEnv with stateViewErr := some ⟨3⟩ }

/-- Concrete environment whose resource fetch fails with a not-found
error. -/
def notFoundEnv : Env :=
  { healthyEnv with fetch := Except.error ⟨true, 4⟩ }

/-- C1: in the Ready-state handler, completeness is evaluated before
up-to-dateness, which is evaluated before scale need — whenever the
cluster is incomplete the outcome is `Recovering` independently of
the up-to-dateness and scale results, and whenever it is complete
but stale the outcome is `Updating` independently of the scale
result — and the next state is `Recovering` when incomplete,
`Updating` when complete but not up to date, `Scale` when complete
and up to date with a scale required, and `Ready` (unchanged)
otherwise. -/
theorem readyState_dispatch_priority :
    (∀ (u : Except OpError Bool) (sc : Bool),
      Ctrl.handleReadyState "Ready" none (Except.ok false) u sc
        = ("Recovering", none)) ∧
    (∀ sc : Bool,
      Ctrl.handleReadyState "Ready" none (Except.ok true) (Except.ok false) sc
        = ("Updating", none)) ∧
    Ctrl.handleReadyState "Ready" none (Except.ok true) (Except.ok true) true
      = ("Scale", none) ∧
    Ctrl.handleReadyState "Ready" none (Except.ok true) (Except.ok true) false
      = ("Ready", none) := by
  refine ⟨fun u sc => rfl, fun sc => rfl, rfl, rfl⟩

/-- C2: the Recovering-state handler sets the persisted lifecycle
state to `Ready` when the recovery routine succeeds, and leaves it
at `Recovering` (returning the error) when it fails. -/
theorem recoveringState_transitions :
    (∀ st : String, Legacy.handleRecoveringState st none = ("Ready", none)) ∧
    (∀ e : OpError,
      Legacy.handleRecoveringState "Recovering" (some e)
        = ("Recovering", some e)) := by
  exact ⟨fun st => rfl, fun e => rfl⟩

/-- C3: the Updating-state handler sets the next lifecycle state to
`Recovering` regardless of whether the rolling update succeeded or
failed, in both controller variants. -/
theorem updatingState_always_recovering (st : String) (r : Option OpError) :
    (Ctrl.handleUpdatingState st r).1 = "Recovering" ∧
    (Legacy.handleUpdatingState st r).1 = "Recovering" :=
  ⟨rfl, rfl⟩

/-- C4: the Scale-state handler sets the next lifecycle state to
`Ready` and returns no error, whatever the scale operation's result,
in both controller variants. -/
theorem scaleState_best_effort (st : String) (r : Option OpError) :
    Ctrl.handleScaleState st r = ("Ready", none) ∧
    Legacy.handleScaleState st r = ("Ready", none) :=
  ⟨rfl, rfl⟩

/-- C5 counterexample: when the initial pod-deletion step of the
initialization handler fails on a tick entered in state `NotExists`,
the handler returns the error but leaves the status at `NotExists` —
it is not set to `Reset` as the claim states. -/
theorem initializing_deleteFail_not_reset :
    (Ctrl.handleInitializingCluster "NotExists" (some ⟨0⟩) none none).2.isSome
      = true ∧
    (Ctrl.handleInitializingCluster "NotExists" (some ⟨0⟩) none none).1
      ≠ "Reset" := by
  refine ⟨rfl, ?_⟩
  intro h
  simp [Ctrl.handleInitializingCluster] at h

/-- C5 amended: the initialization handler sets the status to
`Ready` on success; a leader-creation or follower-initialization
failure sets it to `Reset`; a pod-deletion failure leaves the status
unchanged (so a `NotExists` entry stays `NotExists` and a `Reset`
entry stays `Reset`, each re-dispatching the initialization handler
on the next tick).  Both controller variants agree. -/
theorem initializingCluster_transitions (st : String) (cr : Bool) :
    (Ctrl.handleInitializingCluster st none none none = ("Ready", none) ∧
      Legacy.handleInitializingCluster st cr none none none = ("Ready", cr, none)) ∧
    (∀ (e : OpError) (cl fo : Option OpError),
      Ctrl.handleInitializingCluster st (some e) cl fo = (st, some e) ∧
      Legacy.handleInitializingCluster st cr (some e) cl fo = (st, cr, some e)) ∧
    (∀ (e : OpError) (fo : Option OpError),
      Ctrl.handleInitializingCluster st none (some e) fo = ("Reset", some e) ∧
      Legacy.handleInitializingCluster st cr none (some e) fo = ("Reset", true, some e)) ∧
    (∀ e : OpError,
      Ctrl.handleInitializingCluster st none none (some e) = ("Reset", some e) ∧
      Legacy.handleInitializingCluster st cr none none (some e) = ("Reset", true, some e)) := by
  exact ⟨⟨rfl, rfl⟩, fun e cl fo => ⟨rfl, rfl⟩, fun e fo => ⟨rfl, rfl⟩,
    fun e => ⟨rfl, rfl⟩⟩

/-- C6: on every tick whose resource fetch succeeded, the reconcile
loop returns a nil error whatever any handler returned, and whenever
a handler was dispatched the returned result carries the fixed
15-second requeue delay.  Both controller variants agree. -/
theorem reconcile_swallows_handler_errors (s : String) (e : Env) (cr : Bool) :
    (Ctrl.ReconcileOk s e).err = none ∧
    ((Ctrl.ReconcileOk s e).dispatched.isSome = true →
      (Ctrl.ReconcileOk s e).result.requeueAfterSec = 15) ∧
    (Legacy.ReconcileOk cr s e).err = none ∧
    ((Legacy.ReconcileOk cr s e).dispatched.isSome = true →
      (Legacy.ReconcileOk cr s e).result.requeueAfterSec = 15) := by
  refine ⟨?_, ?_, ?_, ?_⟩ <;>
    simp only [Ctrl.ReconcileOk, Legacy.ReconcileOk] <;>
    split <;> (try split) <;> simp

/-- C6 witness: a tick in state `Updating` whose rolling update
fails still returns a nil error and a 15-second requeue. -/
theorem reconcile_swallows_handler_errors_witness :
    (Ctrl.ReconcileOk "Updating" updateFailEnv).err = none ∧
    (Ctrl.ReconcileOk "Updating" updateFailEnv).result.requeueAfterSec = 15 :=
  ⟨(reconcile_swallows_handler_errors "Updating" updateFailEnv false).1,
    (reconcile_swallows_handler_errors "Updating" updateFailEnv false).2.1
      (by decide)⟩

/-- C7: when the fetch of the cluster resource fails, the tick
dispatches no handler; a not-found failure yields a nil returned
error and any other fetch failure is returned as the error.  Both
controller variants agree. -/
theorem fetch_failure_stops_tick (e : Env) (cr : Bool) (fe : FetchError)
    (h : e.fetch = Except.error fe) :
    (Ctrl.Reconcile e).dispatched = none ∧
    (Legacy.Reconcile cr e).dispatched = none ∧
    (fe.isNotFound = true →
      (Ctrl.Reconcile e).err = none ∧ (Legacy.Reconcile cr e).err = none) ∧
    (fe.isNotFound = false →
      (Ctrl.Reconcile e).err = some fe ∧ (Legacy.Reconcile cr e).err = some fe) := by
  refine ⟨?_, ?_, fun hn => ⟨?_, ?_⟩, fun hn => ⟨?_, ?_⟩⟩ <;>
    simp [Ctrl.Reconcile, Legacy.Reconcile, h, ignoreNotFound, *]

/-- C7 witness: a not-found fetch failure dispatches nothing and
returns a nil error. -/
theorem fetch_failure_stops_tick_witness :
    (Ctrl.Reconcile notFoundEnv).dispatched = none ∧
    (Ctrl.Reconcile notFoundEnv).err = none :=
  ⟨(fetch_failure_stops_tick notFoundEnv false ⟨true, 4⟩ rfl).1,
    ((fetch_failure_stops_tick notFoundEnv false ⟨true, 4⟩ rfl).2.2.1 rfl).1⟩

/-- C8 counterexample: it is not the case that every operation that
regenerates the state view runs only in states `NotExists` or
`Reset` — the `PrintClusterStateView` HTTP endpoint regenerates it
unconditionally, in particular while the lifecycle state is
`Ready`. -/
theorem printStateView_regenerates_while_ready :
    ¬ (∀ s : String, (Legacy.PrintClusterStateView s).regen = true →
        s = "NotExists" ∨ s = "Reset") := by
  intro h
  rcases h "Ready" rfl with h1 | h1
  · exact absurd h1 (by decide)
  · exact absurd h1 (by decide)

/-- C8 amended: within the reconcile tick itself the state view is
regenerated wholesale only when the effective lifecycle state is
`NotExists` or `Reset` (in both controller variants); the diagnostic
HTTP endpoint `PrintClusterStateView`, however, regenerates it
regardless of the lifecycle state. -/
theorem reconcile_regen_only_in_init_states (s : String) (e : Env) (cr : Bool) :
    ((Ctrl.ReconcileOk s e).regen = true →
      Ctrl.effectiveState s = "NotExists" ∨ Ctrl.effectiveState s = "Reset") ∧
    ((Legacy.ReconcileOk cr s e).regen = true →
      Ctrl.effectiveState s = "NotExists" ∨ Ctrl.effectiveState s = "Reset") := by
  constructor
  · intro h
    by_cases h1 : Ctrl.effectiveState s = "NotExists" ∨ Ctrl.effectiveState s = "Reset"
    · exact h1
    · exfalso
      simp only [Ctrl.ReconcileOk, if_neg h1] at h
      by_cases h2 : e.stateViewErr.isSome = true
      · simp [if_pos h2] at h
      · simp [if_neg h2] at h
  · intro h
    by_cases h1 : Ctrl.effectiveState s = "NotExists"
    · exact Or.inl h1
    · simp only [Legacy.ReconcileOk, if_neg h1] at h
      by_cases h2 : e.stateViewErr.isSome = true
      · simp [if_pos h2] at h
      · simp only [if_neg h2] at h
        by_cases h3 : Ctrl.effectiveState s = "Reset"
        · exact Or.inr h3
        · simp [if_neg h3] at h

/-- C8 amended witness: a tick entered in state `Reset` regenerates
the state view, and `Reset` is one of the two permitted states. -/
theorem reconcile_regen_only_in_init_states_witness :
    (Ctrl.ReconcileOk "Reset" healthyEnv).regen = true ∧
    (Ctrl.effectiveState "Reset" = "NotExists" ∨
      Ctrl.effectiveState "Reset" = "Reset") :=
  ⟨by decide,
    (reconcile_regen_only_in_init_states "Reset" healthyEnv false).1 (by decide)⟩

/-- C9: a tick whose persisted lifecycle-state string is empty
dispatches the full-initialization handler, exactly as a tick whose
string is `NotExists` does: the two ticks dispatch the same handler,
return the same result and error, and leave status strings with the
same effective lifecycle state. -/
theorem empty_state_initializes (e : Env) :
    (Ctrl.ReconcileOk "" e).dispatched = some Handler.initializing ∧
    (Ctrl.ReconcileOk "" e).dispatched = (Ctrl.ReconcileOk "NotExists" e).dispatched ∧
    (Ctrl.ReconcileOk "" e).finalStatus.map Ctrl.effectiveState
      = (Ctrl.ReconcileOk "NotExists" e).finalStatus.map Ctrl.effectiveState ∧
    (Ctrl.ReconcileOk "" e).result = (Ctrl.ReconcileOk "NotExists" e).result ∧
    (Ctrl.ReconcileOk "" e).err = (Ctrl.ReconcileOk "NotExists" e).err := by
  obtain ⟨f, sv, dp, cl, fo, ve, co, ut, sr, so, rc, ru⟩ := e
  refine ⟨rfl, ?_, ?_, ?_, rfl⟩ <;>
    cases dp <;> cases cl <;> cases fo <;> rfl

/-- C10: when the state-view read fails at the start of a tick whose
effective lifecycle state is not `NotExists` (and, for the current
variant, not `Reset`), the tick dispatches no handler and returns a
20-second requeue with a nil error, leaving the status string
untouched and never reaching the persistence calls. -/
theorem stateViewFail_skips_dispatch (s : String) (e : Env) (cr : Bool)
    (err0 : OpError) (hsv : e.stateViewErr = some err0)
    (h1 : Ctrl.effectiveState s ≠ "NotExists") :
    Legacy.ReconcileOk cr s e
      = { result := { requeue := false, requeueAfterSec := 20 }, err := none,
          dispatched := none, finalStatus := some s, regen := false,
          persisted := false, clusterReset := cr } ∧
    (Ctrl.effectiveState s ≠ "Reset" →
      Ctrl.ReconcileOk s e
        = { result := { requeue := false, requeueAfterSec := 20 }, err := none,
            dispatched := none, finalStatus := some s, regen := false,
            persisted := false }) := by
  constructor
  · simp only [Legacy.ReconcileOk, if_neg h1, hsv]
    simp
  · intro h2
    have hor : ¬ (Ctrl.effectiveState s = "NotExists" ∨ Ctrl.effectiveState s = "Reset") := by
      rintro (h | h)
      · exact h1 h
      · exact h2 h
    simp only [Ctrl.ReconcileOk, if_neg hor, hsv]
    simp

/-- C10 witness: a tick in state `Ready` whose state-view read fails
skips dispatch with a 20-second requeue and nil error in both
variants. -/
theorem stateViewFail_skips_dispatch_witness :
    Legacy.ReconcileOk false "Ready" viewReadFailEnv
      = { result := { requeue := false, requeueAfterSec := 20 }, err := none,
          dispatched := none, finalStatus := some "Ready", regen := false,
          persisted := false, clusterReset := false } ∧
    Ctrl.ReconcileOk "Ready" viewReadFailEnv
      = { result := { requeue := false, requeueAfterSec := 20 }, err := none,
          dispatched := none, finalStatus := some "Ready", regen := false,
          persisted := false } :=
  ⟨(stateViewFail_skips_dispatch "Ready" viewReadFailEnv false ⟨3⟩ rfl
      (by decide)).1,
    (stateViewFail_skips_dispatch "Ready" viewReadFailEnv false ⟨3⟩ rfl
      (by decide)).2 (by decide)⟩
